import Mathlib

/-!
# FloorPlanGen: a verification development

Shallow embedding of the geometric layout engine of the FloorPlanGen
repository (`app/corridor_patterns.py`, `app/professional_layout_engine.py`,
`app/row_based_layout_v3.py`, `app/architectural_validator.py`, `app/main.py`)
over an exact rational-arithmetic geometry kernel.

Geometry model.  The Python code manipulates shapely polygons; every polygon
that the embedded code paths construct is a finite union of axis-aligned
rectangles, so the kernel below represents a planar region as a `List Rect`
with set-union semantics and rational coordinates.  Shapely operations are
mirrored as follows:

* `intersection`, `difference`, `union` are exact on such regions;
* `buffer(d)` (outward) is modelled by expanding each rectangle by `d` on all
  four sides (square corner caps).  Shapely uses round corner caps; every
  decision taken on a buffered region in the theorems below is in a regime
  where the two agree (the probe geometry meets the buffered region on a face,
  or misses it by more than `d`), which is checked per concrete trace.
* `a.distance(b)` comparisons `dist ≤ t` are modelled by the exact comparison
  `distSq ≤ t²`, avoiding irrational square roots.
* `np.sqrt` is modelled by `ratSqrt`, exact on rationals whose numerator and
  denominator are perfect squares; every evaluated trace either stays in that
  domain or never uses the value.

Python `float` arithmetic is modelled by exact rationals; all concrete traces
keep a margin around every comparison so that the double-precision result
agrees with the exact one.
-/

namespace FloorPlanGen

attribute [local semireducible] Rat.add Rat.mul Rat.sub Rat.inv Rat.ofScientific

set_option maxRecDepth 100000

/-- An axis-aligned rectangle with rational corner coordinates.
A rectangle with `x1 ≤ x0` or `y1 ≤ y0` denotes the empty region. -/
structure Rect where
  x0 : ℚ
  y0 : ℚ
  x1 : ℚ
  y1 : ℚ
deriving DecidableEq, Repr

/-- A planar region: the union of a finite list of rectangles. -/
abbrev Region := List Rect

/-- A rectangle is proper when it has positive width and height. -/
def Rect.isProper (r : Rect) : Bool :=
  decide (r.x0 < r.x1) && decide (r.y0 < r.y1)

/-- Area of a single rectangle (0 for improper ones). -/
def Rect.rectArea (r : Rect) : ℚ :=
  if r.isProper then (r.x1 - r.x0) * (r.y1 - r.y0) else 0

/-- Intersection of two rectangles. -/
def Rect.interRect (r s : Rect) : Rect :=
  ⟨max r.x0 s.x0, max r.y0 s.y0, min r.x1 s.x1, min r.y1 s.y1⟩

/-- Drop improper rectangles from a region. -/
def properR (A : Region) : Region := A.filter Rect.isProper

/-- Emptiness of a region (shapely `is_empty`). -/
def isEmptyR (A : Region) : Bool := (properR A).isEmpty

/-- Intersection of two regions (shapely `intersection`). -/
def interR (A B : Region) : Region :=
  properR ((properR A).foldr (fun r acc => B.map (fun s => r.interRect s) ++ acc) [])

/-- The (at most four) pieces of rectangle `r` not covered by rectangle `s`. -/
def diffRect (r s : Rect) : List Rect :=
  let i := r.interRect s
  if i.isProper then
    properR [⟨r.x0, r.y0, i.x0, r.y1⟩, ⟨i.x1, r.y0, r.x1, r.y1⟩,
             ⟨i.x0, r.y0, i.x1, i.y0⟩, ⟨i.x0, i.y1, i.x1, r.y1⟩]
  else [r]

/-- Difference of two regions (shapely `difference`). -/
def diffR (A B : Region) : Region :=
  B.foldl (fun acc s => acc.foldr (fun r l => diffRect r s ++ l) []) (properR A)

/-- Rewrite a region as a list of pairwise-disjoint rectangles with the same
union (used to compute areas and centroids of overlapping unions exactly). -/
def disjointify (A : Region) : Region :=
  A.foldl (fun acc r => acc ++ diffR [r] acc) []

/-- Exact area of the union of a region (shapely `area`). -/
def areaR (A : Region) : ℚ := ((disjointify A).map Rect.rectArea).sum

/-- Bounding box `(minx, miny, maxx, maxy)` of a non-empty region
(shapely `bounds`); `(0,0,0,0)` for the empty region. -/
def boundsR (A : Region) : ℚ × ℚ × ℚ × ℚ :=
  match properR A with
  | [] => (0, 0, 0, 0)
  | r :: rs =>
      rs.foldl
        (fun b s => (min b.1 s.x0, min b.2.1 s.y0, max b.2.2.1 s.x1, max b.2.2.2 s.y1))
        (r.x0, r.y0, r.x1, r.y1)

/-- Centroid of a region (shapely `centroid`); `(0,0)` for the empty region. -/
def centroidR (A : Region) : ℚ × ℚ :=
  let D := disjointify A
  let a := (D.map Rect.rectArea).sum
  if a = 0 then (0, 0)
  else (((D.map (fun r => r.rectArea * (r.x0 + r.x1) / 2)).sum) / a,
        ((D.map (fun r => r.rectArea * (r.y0 + r.y1) / 2)).sum) / a)

/-- Axis gap between two closed intervals. -/
def axisGap (lo1 hi1 lo2 hi2 : ℚ) : ℚ := max 0 (max (lo2 - hi1) (lo1 - hi2))

/-- Squared Euclidean distance between two rectangles. -/
def rectDistSq (r s : Rect) : ℚ :=
  axisGap r.x0 r.x1 s.x0 s.x1 ^ 2 + axisGap r.y0 r.y1 s.y0 s.y1 ^ 2

/-- Squared Euclidean distance between two non-empty regions; 0 if either is
empty.  `a.distance(b) ≤ t` in the source is modelled as `distSqR a b ≤ t²`. -/
def distSqR (A B : Region) : ℚ :=
  match (properR A).foldr (fun r acc => (properR B).map (rectDistSq r) ++ acc) [] with
  | [] => 0
  | d :: ds => ds.foldl min d

/-- Closed-set intersection test (shapely `intersects`, which counts boundary
touching). -/
def intersectsR (A B : Region) : Bool :=
  !(isEmptyR A) && !(isEmptyR B) && decide (distSqR A B = 0)

/-- Containment of region `B` in region `A` (shapely `contains` on
two-dimensional operands). -/
def containsR (A B : Region) : Bool := isEmptyR (diffR B A)

/-- Expand one rectangle by `d` on every side. -/
def Rect.expand (r : Rect) (d : ℚ) : Rect := ⟨r.x0 - d, r.y0 - d, r.x1 + d, r.y1 + d⟩

/-- Outward buffer of a region (shapely `buffer(d)` with the square-cap caveat
described in the header). -/
def expandR (A : Region) (d : ℚ) : Region := (properR A).map (fun r => r.expand d)

/-- Total length of a union of closed intervals, given as a list of
`(lo, hi)` pairs (pairs with `hi ≤ lo` are empty). -/
def intervalUnionLen (ivs : List (ℚ × ℚ)) : ℚ :=
  let dis := ivs.foldl
    (fun acc i =>
      acc ++ (acc.foldl
        (fun pieces j =>
          pieces.foldr
            (fun p l =>
              (if p.1 < j.1 then [(p.1, min p.2 j.1)] else []) ++
              (if j.2 < p.2 then [(max p.1 j.2, p.2)] else []) ++ l)
            [])
        [i]))
    []
  (dis.map (fun p => max 0 (p.2 - p.1))).sum

/-- A horizontal or vertical segment: axis flag (`true` = horizontal, i.e.
constant `y`), the fixed coordinate, and the varying-coordinate interval. -/
structure Seg where
  horiz : Bool
  c : ℚ
  lo : ℚ
  hi : ℚ
deriving DecidableEq, Repr

/-- The four boundary edges of a rectangle. -/
def Rect.edges (r : Rect) : List Seg :=
  [⟨true, r.y0, r.x0, r.x1⟩, ⟨true, r.y1, r.x0, r.x1⟩,
   ⟨false, r.x0, r.y0, r.y1⟩, ⟨false, r.x1, r.y0, r.y1⟩]

/-- Portion of a segment lying inside a closed rectangle, as an interval of
the varying coordinate. -/
def segInRect (e : Seg) (s : Rect) : List (ℚ × ℚ) :=
  if e.horiz then
    if s.y0 ≤ e.c ∧ e.c ≤ s.y1 then [(max e.lo s.x0, min e.hi s.x1)] else []
  else
    if s.x0 ≤ e.c ∧ e.c ≤ s.x1 then [(max e.lo s.y0, min e.hi s.y1)] else []

/-- Length of the part of rectangle `r`'s boundary lying inside region `A`
(shapely `r.boundary.intersection(A).length` for a two-dimensional `A`). -/
def boundaryInRegionLen (r : Rect) (A : Region) : ℚ :=
  (r.edges.map (fun e => intervalUnionLen ((properR A).foldr (fun s acc => segInRect e s ++ acc) []))).sum

/-- Overlap length of two collinear closed intervals. -/
def collinearOverlap (a b c d : ℚ) : ℚ := max 0 (min b d - max a c)

/-- Shared length of the boundaries of two rectangles (shapely
`r.boundary.intersection(s.boundary).length`): collinear edge overlaps;
perpendicular crossings have measure zero. -/
def boundarySharedLen (r s : Rect) : ℚ :=
  (r.edges.map (fun e =>
    (s.edges.map (fun f =>
      if e.horiz = f.horiz ∧ e.c = f.c then collinearOverlap e.lo e.hi f.lo f.hi else 0)).sum)).sum

/-- Floor of a rational as an integer. -/
def ratFloorZ (q : ℚ) : ℤ := Int.fdiv q.num (q.den : ℤ)

/-- Ceiling of a rational as an integer. -/
def ratCeilZ (q : ℚ) : ℤ := -(ratFloorZ (-q))

/-- Python `int()` on a rational value: truncation toward zero. -/
def pyTrunc (q : ℚ) : ℤ :=
  if q < 0 then ratCeilZ q else ratFloorZ q

/-- Python 3 `round()` to an integer: round half to even. -/
def pyRound (q : ℚ) : ℤ :=
  let f := ratFloorZ q
  let frac := q - (f : ℚ)
  if frac < 1/2 then f
  else if 1/2 < frac then f + 1
  else if f % 2 = 0 then f else f + 1

/-- Floor integer square root by the binary digit recurrence
`sqrt n = adjust (2 · sqrt (n / 4))`, structurally recursive on a fuel
argument: `fuel` levels handle every `n < 4 ^ fuel`. -/
def natSqrtFuel : ℕ → ℕ → ℕ
  | 0, _ => 0
  | fuel + 1, n =>
      if n < 2 then n
      else
        let s := 2 * natSqrtFuel fuel (n / 4)
        if (s + 1) * (s + 1) ≤ n then s + 1 else s

/-- Floor integer square root (64 fuel levels cover all `n < 4 ^ 64`). -/
def natSqrtB (n : ℕ) : ℕ := natSqrtFuel 64 n

/-- Model of `np.sqrt`: exact on rationals whose numerator and denominator are
perfect squares (the only inputs whose value the verified traces use). -/
def ratSqrt (q : ℚ) : ℚ :=
  if q ≤ 0 then 0 else (natSqrtB q.num.toNat : ℚ) / (natSqrtB q.den : ℚ)

/-- Model of `np.arange(start, stop, step)` for a positive step: the values
`start + k·step` for `0 ≤ k < ⌈(stop − start)/step⌉`. -/
def arange (start stop step : ℚ) : List ℚ :=
  if 0 < step then
    (List.range (ratCeilZ ((stop - start) / step)).toNat).map
      (fun k => start + (k : ℚ) * step)
  else []

/-- Closed-set touching test for two rectangles (shared point suffices). -/
def rectsTouch (r s : Rect) : Bool :=
  decide (r.x0 ≤ s.x1) && decide (s.x0 ≤ r.x1) && decide (r.y0 ≤ s.y1) && decide (s.y0 ≤ r.y1)

/-- Connected components of a region, merging rectangles that touch as closed
sets.  Mirrors the decomposition of a shapely `MultiPolygon` into its `geoms`
(the order of components is a model choice; it is deterministic from the
input order, which is all the development relies on). -/
def componentsR (A : Region) : List Region :=
  (properR A).foldl
    (fun comps r =>
      let touching := comps.filter (fun comp => comp.any (fun s => rectsTouch r s))
      let rest := comps.filter (fun comp => !(comp.any (fun s => rectsTouch r s)))
      rest ++ [touching.foldr (· ++ ·) [] ++ [r]])
    []

/-- True when a region is a single connected polygon (shapely
`isinstance(x, Polygon)` after a boolean operation, which yields a
`MultiPolygon` when several components result). -/
def isSinglePolygonR (A : Region) : Bool := (componentsR A).length = 1

/-- Pairwise intersections of two interval lists. -/
def intervalInterList (xs ys : List (ℚ × ℚ)) : List (ℚ × ℚ) :=
  xs.foldr (fun x acc => ys.map (fun y => (max x.1 y.1, min x.2 y.2)) ++ acc) []

/-- Intervals of an edge whose outer side (`outward = true` is the positive
axis direction) is covered by a region: such portions are interior to the
region, not boundary. -/
def edgeOutsideCover (R : Region) (e : Seg) (outward : Bool) : List (ℚ × ℚ) :=
  (properR R).foldr
    (fun s acc =>
      (if e.horiz then
        (if outward then
          (if s.y0 ≤ e.c ∧ e.c < s.y1 then [(s.x0, s.x1)] else [])
        else
          (if s.y0 < e.c ∧ e.c ≤ s.y1 then [(s.x0, s.x1)] else []))
      else
        (if outward then
          (if s.x0 ≤ e.c ∧ e.c < s.x1 then [(s.y0, s.y1)] else [])
        else
          (if s.x0 < e.c ∧ e.c ≤ s.x1 then [(s.y0, s.y1)] else []))) ++ acc)
    []

/-- Length of the topological boundary of region `R` lying inside the
two-dimensional region `A` (shapely `R.boundary.intersection(A).length`). -/
def regionBoundaryLenIn (R A : Region) : ℚ :=
  let D := disjointify R
  let contrib := fun (e : Seg) (outward : Bool) =>
    let inA := (properR A).foldr (fun s acc => segInRect e s ++ acc) []
    let cover := edgeOutsideCover D e outward
    intervalUnionLen inA - intervalUnionLen (intervalInterList inA cover)
  (D.map (fun r =>
    contrib ⟨true, r.y0, r.x0, r.x1⟩ false +
    contrib ⟨true, r.y1, r.x0, r.x1⟩ true +
    contrib ⟨false, r.x0, r.y0, r.y1⟩ false +
    contrib ⟨false, r.x1, r.y0, r.y1⟩ true)).sum

/-- Euclidean distance between two regions, via `ratSqrt` of the squared
distance: exact whenever the closest approach is axis-aligned (the only
regime in which the development uses its numeric value). -/
def distR (A B : Region) : ℚ := ratSqrt (distSqR A B)

/-- Stable insertion of `x` into a list sorted descending by `key`:
`x` goes after all elements with `key ≥ key x`. -/
def insertDescBy (key : α → ℚ) (x : α) : List α → List α
  | [] => [x]
  | y :: ys => if key x > key y then x :: y :: ys else y :: insertDescBy key x ys

/-- Stable descending sort by a rational key (Python
`sort(key=..., reverse=True)`). -/
def sortDescBy (key : α → ℚ) (l : List α) : List α :=
  l.foldl (fun acc x => insertDescBy key x acc) []

/-- Stable insertion of `x` into a list sorted ascending by an integer `key`. -/
def insertAscBy (key : α → ℤ) (x : α) : List α → List α
  | [] => [x]
  | y :: ys => if key x < key y then x :: y :: ys else y :: insertAscBy key x ys

/-- Stable ascending sort by an integer key (Python `sort(key=...)`). -/
def sortAscBy (key : α → ℤ) (l : List α) : List α :=
  l.foldl (fun acc x => insertAscBy key x acc) []

/-- Swap two positions of a list (both in bounds, else unchanged). -/
def listSwap (xs : List α) (i j : ℕ) : List α :=
  match xs.get? i, xs.get? j with
  | some a, some b => (xs.set i b).set j a
  | _, _ => xs

/-!
## `app/corridor_patterns.py`: `CorridorPatternGenerator`

The generator state after `__init__`: the building boundary (rectangular in
this embedding), the core polygon, and the corridor width clamped to
`[2.2, 2.5]` m.  A corridor list entry is one shapely geometry, i.e. one
`Region` here.
-/

/-- State of `CorridorPatternGenerator` after `__init__` (the width field
already clamped, as `__init__` does). -/
structure CorridorPatternGenerator where
  boundary : Rect
  core : Region
  corridor_width : ℚ
deriving Repr

/-- `CorridorPatternGenerator.__init__`: clamps the corridor width to
`[2.2, 2.5]` via `max(min(corridor_width, 2.5), 2.2)`. -/
def mkCorridorPatternGenerator (boundary : Rect) (core : Region) (corridor_width : ℚ) :
    CorridorPatternGenerator :=
  ⟨boundary, core, max (min corridor_width 2.5) 2.2⟩

namespace CorridorPatternGenerator

/-- `self.width = maxx - minx`. -/
def width (g : CorridorPatternGenerator) : ℚ := g.boundary.x1 - g.boundary.x0

/-- `self.height = maxy - miny`. -/
def height (g : CorridorPatternGenerator) : ℚ := g.boundary.y1 - g.boundary.y0

/-- `self.area = boundary.area`. -/
def area (g : CorridorPatternGenerator) : ℚ := g.boundary.rectArea

/-- `self.core_center = core.centroid`. -/
def core_center (g : CorridorPatternGenerator) : ℚ × ℚ := centroidR g.core

/-- `select_pattern`: returns an explicit pattern unchanged; for `"auto"`,
decides from aspect ratio and area (source lines 228-259). -/
def select_pattern (g : CorridorPatternGenerator) (pattern : String) : String :=
  if pattern ≠ "auto" then pattern
  else
    let aspect_ratio := if g.height > 0 then g.width / g.height else 1
    if g.area > 2500 then "H"
    else if aspect_ratio > 2.5 ∨ aspect_ratio < 0.4 then "L"
    else if 0.85 ≤ aspect_ratio ∧ aspect_ratio ≤ 1.15 then
      if g.area > 2000 then "+" else "T"
    else if g.area > 1500 then "U"
    else "T"

/-- `_create_connecting_corridor`: an axis-aligned box between two points,
oriented along the dominant direction, clipped to the boundary when not
contained in it. -/
def create_connecting_corridor (g : CorridorPatternGenerator)
    (point1 point2 : ℚ × ℚ) (w : ℚ) : Region :=
  let dx := |point2.1 - point1.1|
  let dy := |point2.2 - point1.2|
  let connector : Rect :=
    if dx > dy then
      ⟨min point1.1 point2.1, point1.2 - w / 2, max point1.1 point2.1, point1.2 + w / 2⟩
    else
      ⟨point1.1 - w / 2, min point1.2 point2.2, point1.1 + w / 2, max point1.2 point2.2⟩
  if containsR [g.boundary] [connector] then [connector]
  else interR [connector] [g.boundary]

/-- Python `min(corridors, key=lambda c: c.distance(core))`: the first
element attaining the minimal distance (squared distances compare
identically). -/
def minByDistToCore (core : Region) (c0 : Region) (cs : List Region) : Region :=
  cs.foldl (fun best c => if distSqR c core < distSqR best core then c else best) c0

/-- `_ensure_core_connection` (source lines 49-117): classify corridors by
intersection with the 0.1-buffered core; if none connects, append one
connector from the closest corridor's centroid to the core centroid;
otherwise append a connector for every corridor isolated from the
0.1-buffered union of the connected ones.  The input corridors are always
kept (Python appends to the same list). -/
def ensure_core_connection (g : CorridorPatternGenerator)
    (corridors : List Region) : List Region :=
  if corridors.isEmpty then corridors
  else
    let core_buffer := expandR g.core 0.1
    let connected := corridors.filter (fun c => intersectsR c core_buffer)
    let unconnected := corridors.filter (fun c => !(intersectsR c core_buffer))
    if connected.isEmpty then
      match corridors with
      | [] => corridors
      | c :: cs =>
          let closest := minByDistToCore g.core c cs
          let connector :=
            g.create_connecting_corridor (centroidR closest) (centroidR g.core)
              g.corridor_width
          corridors ++ [connector]
    else
      let corridor_network := connected.foldr (· ++ ·) []
      let connectors := unconnected.foldr
        (fun uncorr acc =>
          if !(intersectsR uncorr (expandR corridor_network 0.1)) then
            g.create_connecting_corridor (centroidR uncorr)
              (centroidR corridor_network) g.corridor_width :: acc
          else acc) []
      corridors ++ connectors

/-- `_create_grid_pattern` with automatic spacing (source lines 161-226). -/
def create_grid_pattern (g : CorridorPatternGenerator) : List Region :=
  let spacing := max 15.0 (min (min g.width g.height / 2.5) 30.0)
  let num_h := max 2 (min 3 (pyTrunc (g.height / spacing)))
  let horiz := (List.range num_h.toNat).foldr
    (fun i acc =>
      let y := if num_h = 1 then g.boundary.y0 + g.height / 2
               else g.boundary.y0 + (i : ℚ) * (g.height / ((num_h : ℚ) - 1))
      let corridor : Rect :=
        ⟨g.boundary.x0, y - g.corridor_width / 2, g.boundary.x1, y + g.corridor_width / 2⟩
      let clipped := interR [corridor] [g.boundary]
      if !(isEmptyR clipped) ∧ areaR clipped > 1.0 then clipped :: acc else acc) []
  let num_v := max 2 (min 3 (pyTrunc (g.width / spacing)))
  let vert := (List.range num_v.toNat).foldr
    (fun i acc =>
      let x := if num_v = 1 then g.boundary.x0 + g.width / 2
               else g.boundary.x0 + (i : ℚ) * (g.width / ((num_v : ℚ) - 1))
      let corridor : Rect :=
        ⟨x - g.corridor_width / 2, g.boundary.y0, x + g.corridor_width / 2, g.boundary.y1⟩
      let clipped := interR [corridor] [g.boundary]
      if !(isEmptyR clipped) ∧ areaR clipped > 1.0 then clipped :: acc else acc) []
  horiz ++ vert

/-- `_create_U_pattern`: left and right verticals at 80% height plus a full
bottom horizontal. -/
def create_U_pattern (g : CorridorPatternGenerator) : List Region :=
  let w := g.corridor_width
  let left_height := g.height * 0.8
  [[⟨g.boundary.x0 + w, g.boundary.y0 + g.height * 0.1,
     g.boundary.x0 + w * 2, g.boundary.y0 + g.height * 0.1 + left_height⟩],
   [⟨g.boundary.x0 + w, g.boundary.y0 + w, g.boundary.x1 - w, g.boundary.y0 + w * 2⟩],
   [⟨g.boundary.x1 - w * 2, g.boundary.y0 + g.height * 0.1,
     g.boundary.x1 - w, g.boundary.y0 + g.height * 0.1 + left_height⟩]]

/-- `_create_L_pattern`: two perpendicular corridors meeting at the core. -/
def create_L_pattern (g : CorridorPatternGenerator) : List Region :=
  let w := g.corridor_width
  let c := g.core_center
  [[⟨g.boundary.x0, c.2 - w / 2, c.1 + w, c.2 + w / 2⟩],
   [⟨c.1 - w / 2, g.boundary.y0, c.1 + w / 2, c.2 + w⟩]]

/-- `_create_H_pattern`: two verticals at 25% and 75% of the width joined by
a horizontal connector through the core centroid. -/
def create_H_pattern (g : CorridorPatternGenerator) : List Region :=
  let w := g.corridor_width
  let c := g.core_center
  let left_x := g.boundary.x0 + g.width * 0.25
  let right_x := g.boundary.x1 - g.width * 0.25
  [[⟨left_x - w / 2, g.boundary.y0 + w, left_x + w / 2, g.boundary.y1 - w⟩],
   [⟨right_x - w / 2, g.boundary.y0 + w, right_x + w / 2, g.boundary.y1 - w⟩],
   [⟨left_x + w / 2, c.2 - w / 2, right_x - w / 2, c.2 + w / 2⟩]]

/-- `_create_plus_pattern`: four arms (N, S, E, W) from the core centroid. -/
def create_plus_pattern (g : CorridorPatternGenerator) : List Region :=
  let w := g.corridor_width
  let c := g.core_center
  [[⟨c.1 - w / 2, c.2 + w / 2, c.1 + w / 2, g.boundary.y1 - w⟩],
   [⟨c.1 - w / 2, g.boundary.y0 + w, c.1 + w / 2, c.2 - w / 2⟩],
   [⟨c.1 + w / 2, c.2 - w / 2, g.boundary.x1 - w, c.2 + w / 2⟩],
   [⟨g.boundary.x0 + w, c.2 - w / 2, c.1 - w / 2, c.2 + w / 2⟩]]

/-- `_create_line_pattern`: one straight corridor through the core centroid
along the longer boundary axis. -/
def create_line_pattern (g : CorridorPatternGenerator) : List Region :=
  let w := g.corridor_width
  let c := g.core_center
  if g.width ≥ g.height then
    [[⟨g.boundary.x0, c.2 - w / 2, g.boundary.x1, c.2 + w / 2⟩]]
  else
    [[⟨c.1 - w / 2, g.boundary.y0, c.1 + w / 2, g.boundary.y1⟩]]

/-- `_create_T_pattern`: main spine through the core centroid plus a
perpendicular branch covering 80% of the shorter axis, centred on the core. -/
def create_T_pattern (g : CorridorPatternGenerator) : List Region :=
  let w := g.corridor_width
  let c := g.core_center
  if g.width ≥ g.height then
    let branch_length := g.height * 0.8 / 2
    [[⟨g.boundary.x0, c.2 - w / 2, g.boundary.x1, c.2 + w / 2⟩],
     [⟨c.1 - w / 2, c.2 - branch_length, c.1 + w / 2, c.2 + branch_length⟩]]
  else
    let branch_length := g.width * 0.8 / 2
    [[⟨c.1 - w / 2, g.boundary.y0, c.1 + w / 2, g.boundary.y1⟩],
     [⟨c.1 - branch_length, c.2 - w / 2, c.1 + branch_length, c.2 + w / 2⟩]]

/-- The pattern-dispatch step of `generate` (source lines 275-289). -/
def emit_pattern (g : CorridorPatternGenerator) (selected : String) : List Region :=
  if selected = "grid" then g.create_grid_pattern
  else if selected = "U" then g.create_U_pattern
  else if selected = "L" then g.create_L_pattern
  else if selected = "H" then g.create_H_pattern
  else if selected = "+" then g.create_plus_pattern
  else if selected = "line" then g.create_line_pattern
  else g.create_T_pattern

/-- The clipping step of `generate` (source lines 291-298): intersect every
emitted piece with the usable area and keep exactly the non-empty results.
Skipped when no (or an empty, hence falsy) usable area is supplied. -/
def clip_corridors (usable_area : Option Region) (corridors : List Region) : List Region :=
  match usable_area with
  | none => corridors
  | some ua =>
      if isEmptyR ua then corridors
      else (corridors.map (fun c => interR c ua)).filter (fun c => !(isEmptyR c))

/-- `generate` (source lines 261-308): select a pattern, emit its rectangles,
clip them to the usable area, then run the core-connectivity repair. -/
def generate (g : CorridorPatternGenerator) (pattern : String)
    (usable_area : Option Region) : List Region :=
  g.ensure_core_connection (clip_corridors usable_area (g.emit_pattern (g.select_pattern pattern)))

end CorridorPatternGenerator

/-!
## Random-stream models

`app/main.py` seeds the stdlib `random` module
(`random.seed(int(time.time() * 1000) + variant_number)`, line 261) and then
draws `random.uniform` / `random.choice` / `random.shuffle` values from it.
`app/professional_layout_engine.py` additionally draws
`np.random.uniform(min_area, max_area)` (lines 898, 931) from the global
numpy RNG, which is never seeded anywhere in the repository.

Both generators are modelled as explicit streams with a cursor: the stdlib
stream is a function of the seed alone (so fixing the seed fixes it), while
the numpy stream is an independent hidden input of the program.
`uni` yields the `random()`-style draws in `[0, 1)`; `below` yields the
`_randbelow(k)` draws used by `shuffle` and `choice` (taken modulo the
bound). -/
structure RngState where
  uni : ℕ → ℚ
  below : ℕ → ℕ
  uidx : ℕ
  bidx : ℕ

/-- `random.uniform(a, b) = a + (b - a) * random()` of the stdlib (or the
`np.random.uniform` of numpy, on the numpy stream). -/
def rngUniform (a b : ℚ) (s : RngState) : ℚ × RngState :=
  (a + (b - a) * s.uni s.uidx, { s with uidx := s.uidx + 1 })

/-- `random.choice(xs) = xs[_randbelow(len(xs))]`. -/
def rngChoice (xs : List String) (s : RngState) : String × RngState :=
  (xs.getD (s.below s.bidx % xs.length) "", { s with bidx := s.bidx + 1 })

/-- `random.shuffle`: Fisher-Yates, `for i in reversed(range(1, n)):
j = _randbelow(i + 1); swap(x[i], x[j])`. -/
def rngShuffle (xs : List α) (s : RngState) : List α × RngState :=
  let n := xs.length
  (List.range (n - 1)).foldl
    (fun acc k =>
      let i := n - 1 - k
      let j := acc.2.below acc.2.bidx % (i + 1)
      (listSwap acc.1 i j, { acc.2 with bidx := acc.2.bidx + 1 }))
    (xs, s)

/-!
## `app/professional_layout_engine.py`: `ProfessionalLayoutEngine`
-/

/-- Engine state after `__init__`: boundary (rectangular in this embedding)
and obstacle list. -/
structure ProfessionalLayoutEngine where
  boundary : Rect
  obstacles : List Rect
deriving Repr

namespace ProfessionalLayoutEngine

/-- `_calculate_usable_area`: boundary minus the union of the obstacles
(the boundary itself when there are none). -/
def usable_area (e : ProfessionalLayoutEngine) : Region :=
  if e.obstacles.isEmpty then [e.boundary] else diffR [e.boundary] e.obstacles

/-- `place_core` (source lines 199-250): centre (offset by 20% of the bounds
for a directional hint), near-square box of the requested area, clipped to
the usable area when not contained in it.  No area threshold is applied:
the clipped box is returned whatever its size. -/
def place_core (e : ProfessionalLayoutEngine) (core_area : ℚ)
    (preferred_location : String) : Region :=
  let centroid := centroidR [e.boundary]
  let width := e.boundary.x1 - e.boundary.x0
  let height := e.boundary.y1 - e.boundary.y0
  let core_width := ratSqrt (core_area * 0.9)
  let core_depth := core_area / core_width
  let core_center : ℚ × ℚ :=
    if preferred_location = "center" then centroid
    else if preferred_location = "north" then (centroid.1, centroid.2 + height * 0.2)
    else if preferred_location = "south" then (centroid.1, centroid.2 - height * 0.2)
    else if preferred_location = "east" then (centroid.1 + width * 0.2, centroid.2)
    else if preferred_location = "west" then (centroid.1 - width * 0.2, centroid.2)
    else centroid
  let core : Rect :=
    ⟨core_center.1 - core_width / 2, core_center.2 - core_depth / 2,
     core_center.1 + core_width / 2, core_center.2 + core_depth / 2⟩
  if containsR e.usable_area [core] then [core] else interR [core] e.usable_area

/-- `_place_single_core` (source lines 165-197): the same box construction
and clipping, but rejecting (returning `None`) unless the clipped area
exceeds 50% of the requested area. -/
def place_single_core (e : ProfessionalLayoutEngine) (center : ℚ × ℚ)
    (core_area : ℚ) : Option Region :=
  let core_width := ratSqrt (core_area * 0.9)
  let core_depth := core_area / core_width
  let core : Rect :=
    ⟨center.1 - core_width / 2, center.2 - core_depth / 2,
     center.1 + core_width / 2, center.2 + core_depth / 2⟩
  let clipped := if containsR e.usable_area [core] then [core] else interR [core] e.usable_area
  if areaR clipped > core_area * 0.5 then some clipped else none

/-- `place_cores` (source lines 78-163): dispatch on `core_count`; counts
other than 1, 2, 4 fall back to a single centred core. -/
def place_cores (e : ProfessionalLayoutEngine) (core_count : ℤ) (core_area : ℚ)
    (preferred_location : String) : List Region :=
  let centroid := centroidR [e.boundary]
  let width := e.boundary.x1 - e.boundary.x0
  let height := e.boundary.y1 - e.boundary.y0
  if core_count = 1 then
    let core := e.place_core core_area
      (if preferred_location ≠ "auto" then preferred_location else "center")
    if isEmptyR core then [] else [core]
  else if core_count = 2 then
    let positions : List (ℚ × ℚ) :=
      if width > height * 1.5 then
        [(e.boundary.x0 + width * 0.20, centroid.2), (e.boundary.x1 - width * 0.20, centroid.2)]
      else
        [(centroid.1, e.boundary.y0 + height * 0.20), (centroid.1, e.boundary.y1 - height * 0.20)]
    positions.foldr
      (fun p acc => match e.place_single_core p core_area with
        | some c => c :: acc
        | none => acc) []
  else if core_count = 4 then
    let positions : List (ℚ × ℚ) :=
      [(e.boundary.x0 + width * 0.25, e.boundary.y0 + height * 0.25),
       (e.boundary.x1 - width * 0.25, e.boundary.y0 + height * 0.25),
       (e.boundary.x0 + width * 0.25, e.boundary.y1 - height * 0.25),
       (e.boundary.x1 - width * 0.25, e.boundary.y1 - height * 0.25)]
    positions.foldr
      (fun p acc => match e.place_single_core p core_area with
        | some c => c :: acc
        | none => acc) []
  else
    let core := e.place_core core_area "center"
    if isEmptyR core then [] else [core]

/-- `create_visible_corridor_network` (source lines 252-306), in the normal
case where `CorridorPatternGenerator` imported successfully: delegate to the
pattern generator with the usable area. -/
def create_visible_corridor_network (e : ProfessionalLayoutEngine) (core : Region)
    (corridor_width : ℚ) (pattern : String) : List Region :=
  (mkCorridorPatternGenerator e.boundary core corridor_width).generate pattern
    (some e.usable_area)

end ProfessionalLayoutEngine

/-!
## The unit packer (region-based V2 path of `professional_layout_engine.py`)
-/

/-- A materialised unit spec (the dict built at source lines 896-906/930-939;
the `min_area`, `max_area`, `dimensions` keys are never read downstream and
are omitted). -/
structure UnitSpecV2 where
  type : String
  target_area : ℚ
  priority : ℤ
deriving DecidableEq, Repr

/-- A placed unit as appended by `_place_units_pass` (source lines 633-637). -/
structure PlacedUnit where
  type : String
  polygon : Region
  area : ℚ
deriving DecidableEq, Repr

/-- A unit record of the final output list (source lines 802-809/1028-1035). -/
structure UnitOut where
  id : String
  type : String
  polygon : Region
  area : ℚ
  centroid : ℚ × ℚ
deriving DecidableEq, Repr

/-- A `pass_config` dict of `_place_units_pass`. -/
structure PassConfig where
  name : String
  min_perimeter : ℚ
  max_corridor_distance : ℚ
  min_corridor_facing_width : ℚ
  min_area_match : ℚ
  max_attempts : ℕ
deriving Repr

namespace ProfessionalLayoutEngine

/-- Evaluation of one grid candidate inside `_place_units_pass` (source lines
547-613): clip the candidate box to the region, apply the emptiness /
single-polygon / minimum-area / perimeter / facing-width / corridor-distance
rejections in source order, and score the survivor.
`perimeter_length` is `unit_clipped.boundary ∩ boundary.boundary` in the
source; as the clip always lies inside the building boundary this equals the
length of the boundary rectangle's edges inside the clip. -/
def evalCandidate (e : ProfessionalLayoutEngine) (corridor_union : Region)
    (cfg : PassConfig) (target_area uw ud : ℚ) (region : Region) (x y : ℚ) :
    Option (Region × ℚ) :=
  let unit_poly : Rect := ⟨x, y, x + uw, y + ud⟩
  let unit_clipped := interR [unit_poly] region
  if isEmptyR unit_clipped || !(isSinglePolygonR unit_clipped) then none
  else if areaR unit_clipped < target_area * cfg.min_area_match then none
  else
    let perimeter_length := boundaryInRegionLen e.boundary unit_clipped
    if perimeter_length < cfg.min_perimeter then none
    else
      let corridor_distance := distR unit_clipped corridor_union
      let corridor_contact := interR unit_clipped (expandR corridor_union 0.05)
      let has_corridor_contact :=
        !(isEmptyR corridor_contact) && decide (areaR corridor_contact < 0.1)
      let facing_width := regionBoundaryLenIn unit_clipped (expandR corridor_union 0.1)
      if facing_width > 0 ∧ facing_width < cfg.min_corridor_facing_width then none
      else if corridor_distance > cfg.max_corridor_distance then none
      else
        let area_match :=
          min (areaR unit_clipped / target_area) (target_area / areaR unit_clipped)
        let perimeter_score := min (perimeter_length / 3.0) 1.0
        let corridor_score := max 0 (1.0 - corridor_distance / cfg.max_corridor_distance)
        let contact_bonus : ℚ := if has_corridor_contact then 2.0 else 0
        some (unit_clipped,
          area_match * 8 + perimeter_score * 3 + corridor_score * 4 + contact_bonus)

/-- State of the candidate scan for one spec: best clip and score so far,
attempts within the current region, and the two `break` flags. -/
structure ScanState where
  best : Option Region
  bestScore : ℚ
  attempts : ℕ
  innerStop : Bool
  outerStop : Bool

/-- One iteration of the inner (`for y`) loop of `_place_units_pass`:
attempt cap, candidate evaluation, best tracking, and the early exit at
`best_score ≥ thr · 17` where `thr` models `excellent_threshold`
(source lines 541-622). -/
def scanStep (thr : ℚ) (e : ProfessionalLayoutEngine) (corridor_union : Region)
    (cfg : PassConfig) (target_area uw ud : ℚ) (region : Region) (x : ℚ)
    (s : ScanState) (y : ℚ) : ScanState :=
  if s.innerStop then s
  else if cfg.max_attempts ≤ s.attempts then { s with innerStop := true }
  else
    let s := { s with attempts := s.attempts + 1 }
    match evalCandidate e corridor_union cfg target_area uw ud region x y with
    | none => s
    | some (clip, score) =>
        if score > s.bestScore then
          let s := { s with best := some clip, bestScore := score }
          if s.bestScore ≥ thr * 17 then { s with innerStop := true } else s
        else s

/-- The inner (`for y`) loop of `_place_units_pass` for a fixed `x`. -/
def scanColumn (thr : ℚ) (e : ProfessionalLayoutEngine) (corridor_union : Region)
    (cfg : PassConfig) (target_area uw ud : ℚ) (region : Region) (x : ℚ)
    (ys : List ℚ) (st : ScanState) : ScanState :=
  ys.foldl (scanStep thr e corridor_union cfg target_area uw ud region x)
    { st with innerStop := false }

/-- The per-region part of `_place_units_pass` (source lines 509-629): skip
small regions, build the adaptive grid, and run the two nested loops with
their `break` conditions. -/
def scanRegion (thr : ℚ) (e : ProfessionalLayoutEngine) (corridor_union : Region)
    (cfg : PassConfig) (target_area uw ud : ℚ) (region : Region)
    (st : ScanState) : ScanState :=
  if isEmptyR region || decide (areaR region < target_area * 0.3) then st
  else
    let b := boundsR region
    let region_area := areaR region
    let x_step := if region_area < 100 then max 0.3 (uw * 0.15)
                  else if region_area < 500 then max 0.4 (uw * 0.20)
                  else max 0.5 (uw * 0.25)
    let y_step := if region_area < 100 then max 0.3 (ud * 0.15)
                  else if region_area < 500 then max 0.4 (ud * 0.20)
                  else max 0.5 (ud * 0.25)
    let xs := arange b.1 (b.2.2.1 - uw * 0.2) x_step
    let ys := arange b.2.1 (b.2.2.2 - ud * 0.2) y_step
    let st := { st with attempts := 0, innerStop := false, outerStop := false }
    xs.foldl
      (fun s x =>
        if s.outerStop then s
        else
          let s := scanColumn thr e corridor_union cfg target_area uw ud region x ys s
          let s := if s.best.isSome ∧ s.bestScore ≥ thr * 17 then
                     { s with outerStop := true } else s
          if cfg.max_attempts ≤ s.attempts then { s with outerStop := true } else s)
      st

/-- `_place_units_pass` (source lines 483-657), with the early-exit
threshold (`excellent_threshold` in the source) as an explicit parameter.
Returns the remaining specs together with the updated placed-unit and
region lists (which the Python function mutates in place). -/
def place_units_pass_thr (thr : ℚ) (e : ProfessionalLayoutEngine)
    (unit_specs : List UnitSpecV2) (available_regions : List Region)
    (corridor_union : Region) (placed_units : List PlacedUnit)
    (cfg : PassConfig) : List UnitSpecV2 × List PlacedUnit × List Region :=
  unit_specs.foldl
    (fun acc spec =>
      let remaining := acc.1
      let placed := acc.2.1
      let regions := acc.2.2
      let uw := ratSqrt (spec.target_area * 1.3)
      let ud := spec.target_area / uw
      let final := regions.foldl
        (fun st region =>
          scanRegion thr e corridor_union cfg spec.target_area uw ud region st)
        ⟨none, -1, 0, false, false⟩
      match final.best with
      | some best_unit =>
          if final.bestScore > 0 then
            let new_regions := regions.foldr
              (fun region acc2 =>
                let remaining_area := diffR region (expandR best_unit 0.15)
                if isEmptyR remaining_area then acc2
                else componentsR remaining_area ++ acc2)
              []
            (remaining, placed ++ [⟨spec.type, best_unit, areaR best_unit⟩],
             sortDescBy areaR new_regions)
          else (remaining ++ [spec], placed, regions)
      | none => (remaining ++ [spec], placed, regions))
    ([], placed_units, available_regions)

/-- `_place_units_pass` as the source runs it: `excellent_threshold = 0.92`
(source line 539). -/
def place_units_pass (e : ProfessionalLayoutEngine)
    (unit_specs : List UnitSpecV2) (available_regions : List Region)
    (corridor_union : Region) (placed_units : List PlacedUnit)
    (cfg : PassConfig) : List UnitSpecV2 × List PlacedUnit × List Region :=
  place_units_pass_thr 0.92 e unit_specs available_regions corridor_union
    placed_units cfg

end ProfessionalLayoutEngine

/-!
## Unit-spec materialisation (`layout_units_with_corridor_access`)
-/

/-- One entry of the `units` list of the constraints dict, with every
`.get` default already applied: `type` defaults to `"Studio"`, `percentage`
to 0, `count` to 0, `priority` to 1, the area dict's `min` to 50 and `max`
to 100.  The area dict's `target` key stays optional because its default
differs between use sites in the source ((min+max)/2 at lines 729-731,
60 at lines 765/786). -/
structure UnitTypeConfig where
  type : String
  percentage : ℚ
  count : ℕ
  priority : ℤ
  areaMin : ℚ
  areaMax : ℚ
  areaTarget : Option ℚ
deriving Repr

/-- The `unit_constraints` dict with its `.get` defaults applied:
`use_v3_row_based` defaults to `True`, `generation_strategy` to
`"fill_available"`, `total_units.min` to 5 and `total_units.max` to 100. -/
structure UnitConstraints where
  use_v3_row_based : Bool
  generation_strategy : String
  units : List UnitTypeConfig
  total_min : ℤ
  total_max : ℤ
deriving Repr

/-- The weighted average unit area of the `fill_available` estimation
(identical blocks at source lines 723-742 and 844-863): `Σ targetᵢ·pᵢ/100`
divided by `total_percentage/100`, with `target` defaulting to
`(min+max)/2` and a 60 m² fallback when the percentages sum to 0. -/
def avgUnitArea (units : List UnitTypeConfig) : ℚ :=
  let avgSum := (units.map
    (fun ut => ut.areaTarget.getD ((ut.areaMin + ut.areaMax) / 2) * ut.percentage / 100)).sum
  let totalP := (units.map (·.percentage)).sum
  if totalP > 0 then avgSum / (totalP / 100) else 60

/-- The estimated total unit count of the V3 path (source lines 744-750):
`int(available_area / avg_area * 0.95)` clamped to the configured bounds. -/
def estimateUnitsV3 (availArea : ℚ) (c : UnitConstraints) : ℤ :=
  let est := pyTrunc (availArea / avgUnitArea c.units * 0.95)
  max c.total_min (min est c.total_max)

/-- The estimated total unit count of the V2 path (source lines 865-871):
`int(available_area / avg_area * 0.85)` clamped to the configured bounds. -/
def estimateUnitsV2 (availArea : ℚ) (c : UnitConstraints) : ℤ :=
  let est := pyTrunc (availArea / avgUnitArea c.units * 0.85)
  max c.total_min (min est c.total_max)

/-- The per-type loop of the V3 `fill_available` materialisation (source
lines 755-774), with the estimated total as a parameter: per type,
`count = int(estimated_units * percentage / 100)` copies of a spec with the
configured target area (default 60); no random draw. -/
def materialiseFillV3 (est : ℤ) (units : List UnitTypeConfig) : List UnitSpecV2 :=
  units.foldr
    (fun ut acc =>
      List.replicate (pyTrunc ((est : ℚ) * ut.percentage / 100)).toNat
        ⟨ut.type, ut.areaTarget.getD 60, ut.priority⟩ ++ acc)
    []

/-- Spec materialisation of the V3 `fill_available` path (source lines
744-776). -/
def createUnitSpecsFillV3 (availArea : ℚ) (c : UnitConstraints) : List UnitSpecV2 :=
  materialiseFillV3 (estimateUnitsV3 availArea c) c.units

/-- Spec materialisation of the V3 `target_count` path (source lines
778-793): `count` copies per type with the configured target area. -/
def createUnitSpecsCountV3 (c : UnitConstraints) : List UnitSpecV2 :=
  c.units.foldr
    (fun ut acc =>
      List.replicate ut.count ⟨ut.type, ut.areaTarget.getD 60, ut.priority⟩ ++ acc)
    []

/-- The `for i in range(count)` loop shared by the V2 materialisation paths
(source lines 897-906 and 930-939): append `n` specs of one type, each with
an `np.random.uniform(lo, hi)` target area. -/
def drawSpecs (ty : String) (pr : ℤ) (lo hi : ℚ) (n : ℕ)
    (acc : List UnitSpecV2 × RngState) : List UnitSpecV2 × RngState :=
  (List.range n).foldl
    (fun (a : List UnitSpecV2 × RngState) _ =>
      let (t, np2) := rngUniform lo hi a.2
      (a.1 ++ [⟨ty, t, pr⟩], np2))
    acc

/-- The per-type loop of the V2 `fill_available` materialisation (source
lines 876-906), with the estimated total as a parameter: per type,
`count = round(estimated_units * percentage / 100)` specs with
`np.random.uniform` target areas. -/
def materialiseFillV2 (est : ℤ) (units : List UnitTypeConfig)
    (np : RngState) : List UnitSpecV2 × RngState :=
  units.foldl
    (fun acc ut =>
      drawSpecs ut.type ut.priority ut.areaMin ut.areaMax
        (pyRound ((est : ℚ) * ut.percentage / 100)).toNat acc)
    ([], np)

/-- Spec materialisation of the V2 `fill_available` path (source lines
843-909): materialise then sort by `priority` (stable). -/
def createUnitSpecsFillV2 (availArea : ℚ) (c : UnitConstraints)
    (np : RngState) : List UnitSpecV2 × RngState :=
  let res := materialiseFillV2 (estimateUnitsV2 availArea c) c.units np
  (sortAscBy (fun sp => sp.priority) res.1, res.2)

/-- Spec materialisation of the V2 `target_count` path (source lines
912-939): `count` copies per type with `np.random.uniform` target areas;
no priority sort on this path. -/
def createUnitSpecsCountV2 (c : UnitConstraints) (np : RngState) :
    List UnitSpecV2 × RngState :=
  c.units.foldl
    (fun acc ut => drawSpecs ut.type ut.priority ut.areaMin ut.areaMax ut.count acc)
    ([], np)

/-!
## `app/row_based_layout_v3.py`: `RowBasedLayoutV3`
-/

/-- State of `RowBasedLayoutV3` after `__init__`.  Note the constructor
receives a *boundary* polygon and computes
`available_area = boundary.difference(core ∪ corridors)` — obstacles never
enter (line 40), which matters for claim C2. -/
structure RowBasedLayoutV3 where
  boundary : Rect
  corridors : List Region
  core : Region
deriving Repr

namespace RowBasedLayoutV3

/-- `self.corridor_union = unary_union(corridors)`. -/
def corridor_union (v : RowBasedLayoutV3) : Region := v.corridors.foldr (· ++ ·) []

/-- `self.available_area = boundary.difference(unary_union([core] + corridors))`. -/
def available_area (v : RowBasedLayoutV3) : Region :=
  diffR [v.boundary] (v.core ++ v.corridor_union)

/-- `detect_corridor_orientation` (source lines 45-78). -/
def detect_corridor_orientation (v : RowBasedLayoutV3) : String :=
  if v.corridors.isEmpty then "horizontal"
  else
    let sums := v.corridors.foldl
      (fun (acc : ℚ × ℚ) corridor =>
        let b := boundsR corridor
        let w := b.2.2.1 - b.1
        let h := b.2.2.2 - b.2.1
        if w > h * 1.5 then (acc.1 + w, acc.2)
        else if h > w * 1.5 then (acc.1, acc.2 + h)
        else (acc.1 + w * 0.5, acc.2 + h * 0.5))
      (0, 0)
    if sums.1 > sums.2 * 1.3 then "horizontal"
    else if sums.2 > sums.1 * 1.3 then "vertical"
    else "mixed"

/-- A row dict: polygon, placement direction, and the generating corridor. -/
structure Row where
  polygon : Region
  direction : String
  corridor : Region
deriving DecidableEq, Repr

/-- `_split_perpendicular_to_corridors` (source lines 99-179): for each
corridor, two full-extent candidate strips on its two sides, clipped to the
available area and kept when the area exceeds 10 m². -/
def split_perpendicular_to_corridors (v : RowBasedLayoutV3)
    (corridor_orientation : String) : List Row :=
  let ab := boundsR v.available_area
  if corridor_orientation = "horizontal" then
    v.corridors.foldr
      (fun corridor acc =>
        let cb := boundsR corridor
        let row_above : Rect := ⟨ab.1, cb.2.2.2, ab.2.2.1, ab.2.2.2⟩
        let row_below : Rect := ⟨ab.1, ab.2.1, ab.2.2.1, cb.2.1⟩
        ([row_above, row_below].foldr
          (fun row_poly acc2 =>
            let clipped := interR [row_poly] v.available_area
            if !(isEmptyR clipped) ∧ areaR clipped > 10 then
              ⟨clipped, "horizontal", corridor⟩ :: acc2
            else acc2)
          []) ++ acc)
      []
  else
    v.corridors.foldr
      (fun corridor acc =>
        let cb := boundsR corridor
        let row_right : Rect := ⟨cb.2.2.1, ab.2.1, ab.2.2.1, ab.2.2.2⟩
        let row_left : Rect := ⟨ab.1, ab.2.1, cb.1, ab.2.2.2⟩
        ([row_right, row_left].foldr
          (fun row_poly acc2 =>
            let clipped := interR [row_poly] v.available_area
            if !(isEmptyR clipped) ∧ areaR clipped > 10 then
              ⟨clipped, "vertical", corridor⟩ :: acc2
            else acc2)
          []) ++ acc)
      []

/-- `_split_simple_grid` (source lines 181-203): horizontal strips of the
given depth from the bottom up (the Python `while` loop in closed form;
a non-positive depth, which would not terminate in Python, yields no rows). -/
def split_simple_grid (v : RowBasedLayoutV3) (unit_depth : ℚ) : List Row :=
  let ab := boundsR v.available_area
  (arange ab.2.1 ab.2.2.2 unit_depth).foldr
    (fun y acc =>
      let row_poly : Rect := ⟨ab.1, y, ab.2.2.1, min (y + unit_depth) ab.2.2.2⟩
      let clipped := interR [row_poly] v.available_area
      if !(isEmptyR clipped) ∧ areaR clipped > 10 then
        ⟨clipped, "horizontal", v.corridor_union⟩ :: acc
      else acc)
    []

/-- `split_into_rows` (source lines 80-97). -/
def split_into_rows (v : RowBasedLayoutV3) (unit_depth_avg : ℚ) : List Row :=
  let orientation := v.detect_corridor_orientation
  if orientation = "horizontal" then v.split_perpendicular_to_corridors "horizontal"
  else if orientation = "vertical" then v.split_perpendicular_to_corridors "vertical"
  else v.split_simple_grid unit_depth_avg

/-- `fill_row_with_units` (source lines 205-275): specs sorted by target
area descending, packed along the row while they fit, each clipped to the
row and accepted at ≥ 60% of its target area. -/
def fill_row_with_units (row : Row) (unit_specs : List UnitSpecV2) :
    List PlacedUnit :=
  let b := boundsR row.polygon
  let horiz := row.direction = "horizontal"
  let start_pos := if horiz then b.1 else b.2.1
  let end_pos := if horiz then b.2.2.1 else b.2.2.2
  let row_depth := if horiz then b.2.2.2 - b.2.1 else b.2.2.1 - b.1
  if row_depth < 3.0 then []
  else
    let sorted_specs := sortDescBy (fun s => s.target_area) unit_specs
    (sorted_specs.foldl
      (fun (acc : List PlacedUnit × ℚ) spec =>
        let current_pos := acc.2
        let unit_width := spec.target_area / row_depth
        if current_pos + unit_width ≤ end_pos + 0.1 then
          let unit_poly : Rect :=
            if horiz then ⟨current_pos, b.2.1, current_pos + unit_width, b.2.2.2⟩
            else ⟨b.1, current_pos, b.2.2.1, current_pos + unit_width⟩
          let unit_clipped := interR [unit_poly] row.polygon
          if !(isEmptyR unit_clipped) ∧ isSinglePolygonR unit_clipped then
            if areaR unit_clipped ≥ spec.target_area * 0.60 then
              (acc.1 ++ [⟨spec.type, unit_clipped, areaR unit_clipped⟩],
               current_pos + unit_width)
            else acc
          else acc
        else acc)
      ([], start_pos)).1

/-- `layout_units_row_based` (source lines 277-319).  The source computes
`unit_depth_avg = np.sqrt(avg_area * 1.3)` and hands it to
`split_into_rows`, where only the `mixed`-orientation fallback reads it;
`ratSqrt` models that computation as described in the header. -/
def layout_units_row_based (v : RowBasedLayoutV3) (unit_specs : List UnitSpecV2) :
    List PlacedUnit :=
  if unit_specs.isEmpty then []
  else
    let avg_area := (unit_specs.map (·.target_area)).sum / (unit_specs.length : ℚ)
    let unit_depth_avg := ratSqrt (avg_area * 1.3)
    let rows := v.split_into_rows unit_depth_avg
    if rows.isEmpty then []
    else
      (rows.foldl
        (fun (acc : List PlacedUnit × List UnitSpecV2) row =>
          let remaining_specs := acc.2
          if remaining_specs.isEmpty then acc
          else
            let row_area := areaR row.polygon
            let avg_unit_area :=
              (remaining_specs.map (·.target_area)).sum / (remaining_specs.length : ℚ)
            let units_for_this_row :=
              (max 1 (pyTrunc (row_area / avg_unit_area * 0.9))).toNat
            let row_specs := remaining_specs.take units_for_this_row
            let placed_in_row := fill_row_with_units row row_specs
            (acc.1 ++ placed_in_row, remaining_specs.drop placed_in_row.length))
        ([], unit_specs)).1

end RowBasedLayoutV3

namespace ProfessionalLayoutEngine

/-- `layout_units_with_corridor_access` (source lines 659-1062).  The V3
branch computes `available = usable_area \ (core ∪ corridors)` only for the
emptiness check and the estimate, then hands the *boundary* to
`RowBasedLayoutV3`; the V2 branch runs the shuffled three-pass region
placement.  The stdlib stream (`std`, used by `random.shuffle`) and the
numpy stream (`np`, used by `np.random.uniform`) are threaded explicitly;
the V3 branch draws from neither. -/
def layout_units_with_corridor_access (e : ProfessionalLayoutEngine)
    (core : Region) (corridors : List Region) (c : UnitConstraints)
    (std np : RngState) : List UnitOut × RngState × RngState :=
  let occupied := core ++ corridors.foldr (· ++ ·) []
  let available := diffR e.usable_area occupied
  if c.use_v3_row_based then
    if isEmptyR available then ([], std, np)
    else
      let unit_specs :=
        if c.generation_strategy = "fill_available" then
          createUnitSpecsFillV3 (areaR available) c
        else createUnitSpecsCountV3 c
      let v3 : RowBasedLayoutV3 := ⟨e.boundary, corridors, core⟩
      let placed_units := v3.layout_units_row_based unit_specs
      (placed_units.enum.map
        (fun p => ⟨"unit_" ++ toString (p.1 + 1), p.2.type, p.2.polygon, p.2.area,
                   centroidR p.2.polygon⟩),
       std, np)
  else
    if isEmptyR available then ([], std, np)
    else
      let (unit_specs, np) :=
        if c.generation_strategy = "fill_available" then
          createUnitSpecsFillV2 (areaR available) c np
        else createUnitSpecsCountV2 c np
      if corridors.isEmpty then ([], std, np)
      else
        let corridor_union := corridors.foldr (· ++ ·) []
        let (available_regions, std) := rngShuffle (componentsR available) std
        let r1 := place_units_pass e unit_specs available_regions corridor_union []
          ⟨"strict", 0.8, 0.5, 2.5, 0.50, 300⟩
        let r2 :=
          if r1.1.isEmpty then r1
          else place_units_pass e r1.1 r1.2.2 corridor_union r1.2.1
            ⟨"relaxed", 0.0, 5.0, 1.0, 0.35, 500⟩
        let r3 :=
          if r2.1.isEmpty then r2
          else place_units_pass e r2.1 r2.2.2 corridor_union r2.2.1
            ⟨"flexible", 0.0, 15.0, 0.0, 0.25, 1500⟩
        (r3.2.1.enum.map
          (fun p => ⟨"unit_" ++ toString (p.1 + 1), p.2.type, p.2.polygon, p.2.area,
                     centroidR p.2.polygon⟩),
         std, np)

end ProfessionalLayoutEngine

/-!
## `app/architectural_validator.py`: report compilation

The geometric checks of `ArchitecturalConstraintsValidator` append entries
to `self.violations` and `self.warnings`; `validate_floor_plan` then
compiles the report from those two lists (source lines 65-75, 411-425).
The embedding below covers that compilation step for arbitrary collected
lists, which is what claim C7 is about. -/

/-- A violation or warning entry (only the `type` tag matters to the
scoring; the other keys are payload). -/
structure Violation where
  vtype : String
  code : String
deriving DecidableEq, Repr

/-- `_calculate_compliance_score` (source lines 411-425). -/
def calculate_compliance_score (violations warnings : List Violation) : ℚ :=
  let critical_violations := violations.filter (fun v => v.vtype = "CRITICAL")
  let score : ℚ :=
    if critical_violations.length > 0 then
      max 0 (50 - (critical_violations.length : ℚ) * 10)
    else 100 - (warnings.length : ℚ) * 2
  max 0 (min 100 score)

/-- The report record returned by `validate_floor_plan` (source lines
66-75; `summary`, `violations` and `warnings` payloads omitted). -/
structure ValidationReport where
  is_valid : Bool
  score : ℚ
deriving DecidableEq, Repr

/-- The result-compilation step of `validate_floor_plan`:
`is_valid = len(violations) == 0`, `score = _calculate_compliance_score()`. -/
def compile_validation_report (violations warnings : List Violation) :
    ValidationReport :=
  ⟨violations.isEmpty, calculate_compliance_score violations warnings⟩

/-!
## `app/main.py`: `generate_single_variant`

`generate_single_variant` seeds the stdlib RNG from
`time.time() * 1000 + variant_number` (line 261) — modelled by taking the
seeded stdlib stream as the `std` input — draws core area, core location
(variants beyond the first), corridor width and layout type from it, and
composes the engine pipeline.  The numpy global RNG (`np` input) is never
seeded.  The concrete call sites in `main.py` pass the engine stale keyword
names (`fixed_core=` at line 299, `unit_types=` at line 363) that the
current engine signatures do not accept; this embedding composes the engine
API directly, as the repository's test drivers do, and keeps `main.py`'s
seeding, randomisation order, and metrics logic.  `fixed_elements` are
modelled as absent. -/

/-- The constraint fields `generate_single_variant` reads. -/
structure VariantConfig where
  core_area_m2 : Option (ℚ × ℚ)
  preferred_location : String
  corridor_width_m : Option (ℚ × ℚ)
  unit_constraints : UnitConstraints
deriving Repr

/-- The metrics dict (source lines 366-381; note the source sets
`usable_area` to the total area). -/
structure VariantMetrics where
  total_area : ℚ
  usable_area : ℚ
  core_area : ℚ
  corridor_area : ℚ
  units_area : ℚ
  efficiency : ℚ
  corridor_ratio : ℚ
  units_count : ℕ
deriving DecidableEq, Repr

/-- The floor-plan content of one generated variant. -/
structure VariantResult where
  core : Region
  corridors : List Region
  units : List UnitOut
  metrics : VariantMetrics
deriving DecidableEq, Repr

/-- `generate_single_variant` (source lines 249-481), as a function of the
seeded stdlib stream `std` and the unseeded numpy stream `np`. -/
def generate_single_variant (boundary : Rect) (obstacles : List Rect)
    (cfg : VariantConfig) (variant_number : ℕ) (std np : RngState) :
    VariantResult :=
  let e : ProfessionalLayoutEngine := ⟨boundary, obstacles⟩
  let (core_area, std) :=
    match cfg.core_area_m2 with
    | some lohi => rngUniform lohi.1 lohi.2 std
    | none =>
        let (u, std) := rngUniform (-0.1) 0.1 std
        (40.0 * (1.0 + u), std)
  let (preferred_location, std) :=
    if variant_number > 1 then
      rngChoice ["center", "north", "south", "east", "west"] std
    else (cfg.preferred_location, std)
  let core := e.place_core core_area preferred_location
  let (corridor_width, std) :=
    match cfg.corridor_width_m with
    | some lohi => rngUniform lohi.1 lohi.2 std
    | none =>
        let (u, std) := rngUniform (-0.1) 0.1 std
        (2.2 * (1.0 + u), std)
  let (_layout_type, std) :=
    if variant_number > 1 then
      rngChoice ["double_loaded", "single_loaded"] std
    else ("double_loaded", std)
  let corridors := e.create_visible_corridor_network core corridor_width "auto"
  let units :=
    (e.layout_units_with_corridor_access core corridors cfg.unit_constraints std np).1
  let units_area := (units.map (·.area)).sum
  let corridor_area := (corridors.map areaR).sum
  let core_area_actual := if isEmptyR core then 0 else areaR core
  let total_area := (⟨boundary.x0, boundary.y0, boundary.x1, boundary.y1⟩ : Rect).rectArea
  ⟨core, corridors, units,
   ⟨total_area, total_area, core_area_actual, corridor_area, units_area,
    (if total_area > 0 then units_area / total_area else 0),
    (if total_area > 0 then corridor_area / total_area else 0),
    units.length⟩⟩

/-!
# Theorems

One theorem (plus witness or counterexample where required) per claim of the
specification.
-/

/-- The pattern-selection decision rules exactly as the specification words
them (claim C4): evaluated top-down with first match winning, over the
bounding-box extents `W`, `H` (aspect `A = W/H`) and area `S`. -/
def selectPatternSpec (W H S : ℚ) : String :=
  if S > 2500 then "H"
  else if W / H > 2.5 ∨ W / H < 0.4 then "L"
  else if 0.85 ≤ W / H ∧ W / H ≤ 1.15 then
    if S > 2000 then "+" else "T"
  else if S > 1500 then "U"
  else "T"

/-- C4: for every boundary with positive height, automatic pattern selection
returns exactly the top-down decision tree of the specification: `H` when
`S > 2500`; else `L` when `A > 2.5` or `A < 0.4`; else, when
`0.85 ≤ A ≤ 1.15`, `+` for `S > 2000` and `T` otherwise; else `U` when
`S > 1500`; else `T`. -/
theorem C4_pattern_selection (g : CorridorPatternGenerator) (h : 0 < g.height) :
    g.select_pattern "auto" = selectPatternSpec g.width g.height g.area := by
  unfold CorridorPatternGenerator.select_pattern selectPatternSpec
  simp only [if_neg (by simp : ¬("auto" : String) ≠ "auto"), if_pos h]

/-- C4 witness: a concrete 50 × 30 boundary (area 1500, aspect 5/3), where
both sides evaluate to the `T` pattern. -/
theorem C4_pattern_selection_witness :
    0 < (mkCorridorPatternGenerator ⟨0, 0, 50, 30⟩ [] 2.2).height ∧
    (mkCorridorPatternGenerator ⟨0, 0, 50, 30⟩ [] 2.2).select_pattern "auto" =
      selectPatternSpec 50 30 1500 :=
  ⟨by decide,
   (C4_pattern_selection (mkCorridorPatternGenerator ⟨0, 0, 50, 30⟩ [] 2.2)
     (by decide)).trans (by decide)⟩

/-- C7: for every validation run (every pair of collected violation and
warning lists), the report's score is `max(0, 50 − 10·#critical)` when a
CRITICAL violation exists and `max(0, 100 − 2·#warnings)` otherwise, lies in
`[0, 100]`, and `is_valid` holds exactly when the violation list is empty. -/
theorem C7_validator_score (violations warnings : List Violation) :
    (compile_validation_report violations warnings).score =
      (if 0 < (violations.filter (fun v => v.vtype = "CRITICAL")).length then
        max 0 (50 - 10 * ((violations.filter (fun v => v.vtype = "CRITICAL")).length : ℚ))
      else max 0 (100 - 2 * (warnings.length : ℚ))) ∧
    0 ≤ (compile_validation_report violations warnings).score ∧
    (compile_validation_report violations warnings).score ≤ 100 ∧
    ((compile_validation_report violations warnings).is_valid = true ↔ violations = []) := by
  unfold compile_validation_report calculate_compliance_score
  dsimp only
  refine ⟨?_, le_max_left 0 _, max_le (by norm_num) (min_le_left 100 _), List.isEmpty_iff⟩
  rcases Nat.eq_zero_or_pos (violations.filter (fun v => v.vtype = "CRITICAL")).length
    with h | h
  · rw [if_neg (by omega), if_neg (by omega)]
    have hw : (0 : ℚ) ≤ (warnings.length : ℚ) := Nat.cast_nonneg _
    have hr : (100 : ℚ) - (warnings.length : ℚ) * 2 = 100 - 2 * (warnings.length : ℚ) := by
      ring
    rw [hr, inf_eq_right.mpr (by linarith)]
  · rw [if_pos (by omega), if_pos (by omega)]
    have hc : (1 : ℚ) ≤ ((violations.filter (fun v => v.vtype = "CRITICAL")).length : ℚ) := by
      exact_mod_cast h
    have hr : (50 : ℚ) - ((violations.filter (fun v => v.vtype = "CRITICAL")).length : ℚ) * 10 =
        50 - 10 * ((violations.filter (fun v => v.vtype = "CRITICAL")).length : ℚ) := by
      ring
    rw [hr, inf_eq_right.mpr (max_le (by norm_num) (by linarith)), ← sup_assoc, sup_idem]

/-- A 10 × 10 boundary whose obstacles leave only the strip `y ∈ [4, 6]`
usable: the centred 40 m² core box clips down to 12 m², well below half the
requested area. -/
def engC6 : ProfessionalLayoutEngine := ⟨⟨0, 0, 10, 10⟩, [⟨0, 0, 10, 4⟩, ⟨0, 6, 10, 10⟩]⟩

/-- C6 counterexample: on the single-core path the clipped core has area 12,
below 50% of the requested 40 m², yet `place_core` returns it (and
`place_cores` with `core_count = 1` returns a one-element list) instead of
rejecting the placement and returning empty as the claim states. -/
theorem C6_counterexample :
    engC6.place_core 40 "center" = [⟨2, 4, 8, 6⟩] ∧
    areaR (engC6.place_core 40 "center") = 12 ∧ ((12 : ℚ) < 40 * 0.5) ∧
    engC6.place_cores 1 40 "center" = [[⟨2, 4, 8, 6⟩]] := by decide

/-- C6 (amended): the 50% area rejection lives in `_place_single_core` (the
dual/quad-core helper), not in the single-core path: at the boundary
centroid, `_place_single_core` returns exactly the clipped core that
`place_core` computes when that clip exceeds half the requested area, and
`None` otherwise — while `place_core` returns the clip unconditionally. -/
theorem C6_fifty_percent_rule_location (e : ProfessionalLayoutEngine) (a : ℚ) :
    e.place_single_core (centroidR [e.boundary]) a =
      (if areaR (e.place_core a "center") > a * 0.5 then some (e.place_core a "center")
       else none) := by
  rfl

/-- C10: for every `core_count` outside `{1, 2, 4}`, `place_cores` does not
fail: it behaves exactly like `core_count = 1` with a `"center"` hint and
returns at most one core polygon. -/
theorem C10_invalid_core_count_fallback (e : ProfessionalLayoutEngine) (count : ℤ)
    (a : ℚ) (loc : String) (h1 : count ≠ 1) (h2 : count ≠ 2) (h4 : count ≠ 4) :
    e.place_cores count a loc = e.place_cores 1 a "center" ∧
    (e.place_cores count a loc).length ≤ 1 := by
  unfold ProfessionalLayoutEngine.place_cores
  rw [if_neg h1, if_neg h2, if_neg h4]
  constructor
  · rw [if_pos rfl, ite_self]
  · dsimp only
    split <;> simp

/-- C10 witness: `core_count = 3` on the concrete engine `engC6`. -/
theorem C10_invalid_core_count_witness :
    ((3 : ℤ) ≠ 1 ∧ (3 : ℤ) ≠ 2 ∧ (3 : ℤ) ≠ 4) ∧
    (engC6.place_cores 3 40 "north" = engC6.place_cores 1 40 "center" ∧
      (engC6.place_cores 3 40 "north").length ≤ 1) :=
  ⟨⟨by decide, by decide, by decide⟩,
   C10_invalid_core_count_fallback engC6 3 40 "north" (by decide) (by decide) (by decide)⟩

/-- Helper: the core-connectivity repair never removes corridors — its
result is always the input list followed by the appended connectors. -/
theorem ensure_core_connection_append (g : CorridorPatternGenerator)
    (cs : List Region) :
    ∃ extra, g.ensure_core_connection cs = cs ++ extra := by
  rcases cs with _ | ⟨c, cs'⟩
  · exact ⟨[], rfl⟩
  · unfold CorridorPatternGenerator.ensure_core_connection
    rw [if_neg (by simp)]
    dsimp only
    split
    · exact ⟨_, rfl⟩
    · exact ⟨_, rfl⟩

/-- A 30 × 10 boundary with a small west core; the explicit `line` pattern
clipped to the narrow usable strip `x ∈ [0, 1]` leaves one tiny piece. -/
def genC9 : CorridorPatternGenerator :=
  mkCorridorPatternGenerator ⟨0, 0, 30, 10⟩ [⟨0, 4, 2, 6⟩] 2.2

/-- C9 counterexample: `generate` returns the clipped piece of area
2.2 m² < `w · 2` = 4.4 m² — no small-piece discard happens; only empty
intersections are dropped. -/
theorem C9_counterexample :
    genC9.generate "line" (some [⟨0, 0, 1, 10⟩]) = [[⟨0, 39/10, 1, 61/10⟩]] ∧
    areaR [(⟨0, 39/10, 1, 61/10⟩ : Rect)] < genC9.corridor_width * 2 := by decide

/-- C9 (amended): after intersecting the emitted pattern rectangles with the
usable area, exactly the empty pieces are discarded: every kept piece is
non-empty regardless of its area, and the repair step only appends
connectors after them. -/
theorem C9_nonempty_pieces_kept (g : CorridorPatternGenerator) (pattern : String)
    (ua : Region) (h : isEmptyR ua = false) :
    (∀ c ∈ CorridorPatternGenerator.clip_corridors (some ua)
        (g.emit_pattern (g.select_pattern pattern)), isEmptyR c = false) ∧
    ∃ extra, g.generate pattern (some ua) =
      CorridorPatternGenerator.clip_corridors (some ua)
        (g.emit_pattern (g.select_pattern pattern)) ++ extra := by
  constructor
  · intro c hc
    unfold CorridorPatternGenerator.clip_corridors at hc
    dsimp only at hc
    rw [if_neg (by simp [h])] at hc
    simpa using List.of_mem_filter hc
  · exact ensure_core_connection_append g _

/-- C9 witness: the concrete `line`-pattern trace of the counterexample. -/
theorem C9_nonempty_pieces_kept_witness :
    isEmptyR [(⟨0, 0, 1, 10⟩ : Rect)] = false ∧
    ((∀ c ∈ CorridorPatternGenerator.clip_corridors (some [⟨0, 0, 1, 10⟩])
        (genC9.emit_pattern (genC9.select_pattern "line")), isEmptyR c = false) ∧
    ∃ extra, genC9.generate "line" (some [⟨0, 0, 1, 10⟩]) =
      CorridorPatternGenerator.clip_corridors (some [⟨0, 0, 1, 10⟩])
        (genC9.emit_pattern (genC9.select_pattern "line")) ++ extra) :=
  ⟨by decide, C9_nonempty_pieces_kept genC9 "line" [⟨0, 0, 1, 10⟩] (by decide)⟩

/-- A 60 × 30 boundary with the core near the north-east corner; the `U`
pattern clipped to the usable strip `y ∈ [0, 2.9]` leaves one south piece
far from the core. -/
def genC3 : CorridorPatternGenerator :=
  mkCorridorPatternGenerator ⟨0, 0, 60, 30⟩ [⟨50, 24, 54, 28⟩] 2.2

/-- The usable strip of the C3 counterexample. -/
def usableC3 : Region := [⟨0, 0, 60, 29/10⟩]

/-- C3 counterexample: `generate` returns a non-empty corridor list (the
clipped south piece plus the repair connector, whose fixed lateral
coordinate comes from the piece's centroid and misses the core), yet the
core is farther than 0.1 m from every returned corridor: the squared
distance to each exceeds `0.1²`. -/
theorem C3_counterexample :
    (genC3.generate "U" (some usableC3)).length = 2 ∧
    ((genC3.generate "U" (some usableC3)).all
      (fun c => decide ((1/10 : ℚ) ^ 2 < distSqR genC3.core c))) = true := by decide

/-- C3 (amended): the repair step keeps every input corridor, so whenever
some clipped corridor already intersects the 0.1-buffered core, the
returned list still contains a corridor within 0.1 m of the core; when no
corridor does, the appended centroid-aligned connector does not in general
restore the invariant (see the counterexample). -/
theorem C3_connected_corridor_retained (g : CorridorPatternGenerator)
    (corridors : List Region)
    (h : ∃ c ∈ corridors, intersectsR c (expandR g.core 0.1) = true) :
    ∃ c ∈ g.ensure_core_connection corridors,
      intersectsR c (expandR g.core 0.1) = true := by
  obtain ⟨c, hc, hint⟩ := h
  obtain ⟨extra, heq⟩ := ensure_core_connection_append g corridors
  exact ⟨c, heq ▸ List.mem_append_left extra hc, hint⟩

/-- Number of materialised specs of a given unit type. -/
def specCountOfType (specs : List UnitSpecV2) (t : String) : ℕ :=
  (specs.filter (fun s => s.type = t)).length

/-- Helper: type counts add over list concatenation. -/
theorem specCountOfType_append (l1 l2 : List UnitSpecV2) (t : String) :
    specCountOfType (l1 ++ l2) t = specCountOfType l1 t + specCountOfType l2 t := by
  simp [specCountOfType, List.filter_append]

/-- Helper: the V3 per-type loop materialises exactly
`int(est · pᵢ / 100)` specs of each entry's type. -/
theorem specCountOfType_materialiseFillV3 (est : ℤ) (units : List UnitTypeConfig)
    (t : String) :
    specCountOfType (materialiseFillV3 est units) t =
      ((units.filter (fun ut => ut.type = t)).map
        (fun ut => (pyTrunc ((est : ℚ) * ut.percentage / 100)).toNat)).sum := by
  induction units with
  | nil => rfl
  | cons u us ih =>
      unfold materialiseFillV3 at ih ⊢
      rw [List.foldr_cons, specCountOfType_append, ih]
      by_cases h : u.type = t
      · simp [specCountOfType, List.filter_replicate, h]
      · simp [specCountOfType, List.filter_replicate, h]

/-- Helper: `drawSpecs` appends exactly `n` specs of its type. -/
theorem specCountOfType_drawSpecs (ty : String) (pr : ℤ) (lo hi : ℚ) (n : ℕ)
    (acc : List UnitSpecV2 × RngState) (t : String) :
    specCountOfType (drawSpecs ty pr lo hi n acc).1 t =
      specCountOfType acc.1 t + (if ty = t then n else 0) := by
  induction n with
  | zero => simp [drawSpecs]
  | succ k ih =>
      unfold drawSpecs at ih ⊢
      rw [List.range_succ, List.foldl_append, List.foldl_cons, List.foldl_nil]
      dsimp only
      rw [specCountOfType_append, ih]
      by_cases h : ty = t
      · simp [specCountOfType, h]; omega
      · simp [specCountOfType, h]

/-- Helper: the V2 per-type loop (over any starting accumulator) adds the
per-entry counts of the matching types. -/
theorem specCountOfType_foldDraw (counts : UnitTypeConfig → ℕ)
    (units : List UnitTypeConfig) (acc : List UnitSpecV2 × RngState) (t : String) :
    specCountOfType
      (units.foldl
        (fun acc ut => drawSpecs ut.type ut.priority ut.areaMin ut.areaMax (counts ut) acc)
        acc).1 t =
      specCountOfType acc.1 t +
        ((units.filter (fun ut => ut.type = t)).map counts).sum := by
  induction units generalizing acc with
  | nil => simp
  | cons u us ih =>
      rw [List.foldl_cons, ih, specCountOfType_drawSpecs]
      by_cases h : u.type = t
      · simp [h]; omega
      · simp [h]

/-- Helper: stable ascending insertion permutes to a cons. -/
theorem insertAscBy_perm (k : α → ℤ) (x : α) (l : List α) :
    (insertAscBy k x l).Perm (x :: l) := by
  induction l with
  | nil => exact List.Perm.refl _
  | cons y ys ih =>
      unfold insertAscBy
      split
      · exact List.Perm.refl _
      · exact (List.Perm.cons y ih).trans (List.Perm.swap x y ys)

/-- Helper: the stable priority sort is a permutation. -/
theorem sortAscBy_perm (k : α → ℤ) (l : List α) : (sortAscBy k l).Perm l := by
  have aux : ∀ (l acc : List α),
      (l.foldl (fun a x => insertAscBy k x a) acc).Perm (acc ++ l) := by
    intro l
    induction l with
    | nil => intro acc; simp
    | cons x xs ih =>
        intro acc
        rw [List.foldl_cons]
        refine (ih (insertAscBy k x acc)).trans ?_
        refine (((insertAscBy_perm k x acc).append_right xs).trans ?_)
        exact List.perm_middle.symm
  simpa using aux l []

/-- Helper: type counts are invariant under permutation. -/
theorem specCountOfType_perm {l1 l2 : List UnitSpecV2} (h : l1.Perm l2) (t : String) :
    specCountOfType l1 t = specCountOfType l2 t := by
  simp only [specCountOfType]
  exact (h.filter _).length_eq

/-- The configuration of the C5 counterexample: two types at 15% / 85% with
60 m² targets; on 632 m² of free area the V3 estimate is 10 units. -/
def fillCfgC5 : UnitConstraints :=
  ⟨true, "fill_available",
   [⟨"A", 15, 0, 1, 50, 100, some 60⟩, ⟨"B", 85, 0, 1, 50, 100, some 60⟩], 5, 100⟩

/-- C5 counterexample: with `N = 10` and a 15% type, the V3 path
materialises `int(1.5) = 1` spec of that type, not `round(1.5) = 2` as the
claim states for both paths. -/
theorem C5_counterexample :
    estimateUnitsV3 632 fillCfgC5 = 10 ∧
    specCountOfType (createUnitSpecsFillV3 632 fillCfgC5) "A" = 1 ∧
    pyRound ((10 : ℚ) * 15 / 100) = 2 := by decide

/-- C5 (amended): the total estimate is `⌊free/ā · f⌋` clamped to the
configured bounds with `f = 0.95` on the V3 path and `f = 0.85` on the V2
path (this is `estimateUnitsV3` / `estimateUnitsV2` by definition), and the
number of specs materialised for a type is the sum over its entries of
`int(N · pᵢ / 100)` (truncation) on the V3 path and of `round(N · pᵢ / 100)`
(banker's rounding) on the V2 path. -/
theorem C5_spec_counts (avail : ℚ) (c : UnitConstraints) (t : String)
    (np : RngState) :
    specCountOfType (createUnitSpecsFillV3 avail c) t =
      ((c.units.filter (fun ut => ut.type = t)).map
        (fun ut => (pyTrunc ((estimateUnitsV3 avail c : ℚ) * ut.percentage / 100)).toNat)).sum ∧
    specCountOfType (createUnitSpecsFillV2 avail c np).1 t =
      ((c.units.filter (fun ut => ut.type = t)).map
        (fun ut => (pyRound ((estimateUnitsV2 avail c : ℚ) * ut.percentage / 100)).toNat)).sum := by
  constructor
  · exact specCountOfType_materialiseFillV3 _ _ _
  · unfold createUnitSpecsFillV2
    dsimp only
    rw [specCountOfType_perm (sortAscBy_perm _ _) t]
    have h := specCountOfType_foldDraw
      (fun ut => (pyRound ((estimateUnitsV2 avail c : ℚ) * ut.percentage / 100)).toNat)
      c.units ([], np) t
    simpa [materialiseFillV2, specCountOfType] using h

/-- C3 witness: a corridor touching the core of `genC9` survives the repair
step and still touches the buffered core. -/
theorem C3_connected_corridor_retained_witness :
    (∃ c ∈ [[(⟨0, 39/10, 1, 61/10⟩ : Rect)]],
      intersectsR c (expandR genC9.core 0.1) = true) ∧
    ∃ c ∈ genC9.ensure_core_connection [[⟨0, 39/10, 1, 61/10⟩]],
      intersectsR c (expandR genC9.core 0.1) = true :=
  ⟨⟨[⟨0, 39/10, 1, 61/10⟩], by decide, by decide⟩,
   C3_connected_corridor_retained genC9 [[⟨0, 39/10, 1, 61/10⟩]]
     ⟨[⟨0, 39/10, 1, 61/10⟩], by decide, by decide⟩⟩

/-- A 50 × 30 boundary with a 4 × 4 obstacle at `(1, 20)`; core and one
full-width horizontal corridor sit in the strip `y ∈ [14, 16]`. -/
def engC2 : ProfessionalLayoutEngine := ⟨⟨0, 0, 50, 30⟩, [⟨1, 20, 5, 24⟩]⟩

/-- A V3 (default) `target_count` program with a single 70 m² unit. -/
def cfgC2 : UnitConstraints :=
  ⟨true, "target_count", [⟨"2BR", 0, 1, 1, 50, 100, some 70⟩], 5, 100⟩

/-- A stream state for runs that draw nothing relevant. -/
def rngZero : RngState := ⟨fun _ => 0, fun _ => 0, 0, 0⟩

/-- The units the V3 path places on the C2 failing input. -/
def unitsC2 : List UnitOut :=
  (engC2.layout_units_with_corridor_access [⟨23, 14, 26, 16⟩] [[⟨0, 14, 50, 16⟩]]
    cfgC2 rngZero rngZero).1

/-- C2: evaluation of the packer's V3 row-based path at the failing input.
`RowBasedLayoutV3` is constructed with the boundary instead of the usable
area (engine line 796), so the placed unit `[0, 5] × [16, 30]` overlaps the
obstacle `[1, 5] × [20, 24]` by 16 m² and is not contained in the usable
area even after an 0.05 m outward buffer — contradicting the containment
invariant the specification states for both algorithms. -/
theorem C2_unit_overlaps_obstacle :
    unitsC2 = [⟨"unit_1", "2BR", [⟨0, 16, 5, 30⟩], 70, (5/2, 23)⟩] ∧
    containsR (expandR engC2.usable_area 0.05) [(⟨0, 16, 5, 30⟩ : Rect)] = false ∧
    areaR (interR [(⟨0, 16, 5, 30⟩ : Rect)] [⟨1, 20, 5, 24⟩]) = 16 := by decide

/-- The C8 counterexample geometry: a 6.5 × 4.865 region under a corridor
at `y ∈ [4.865, 7.085]`, inside a 12 × 7.085 boundary. -/
def engC8 : ProfessionalLayoutEngine := ⟨⟨0, 0, 12, 7085/1000⟩, []⟩

/-- The single free region of the C8 scan. -/
def regionC8 : Region := [⟨0, 0, 13/2, 973/200⟩]

/-- The corridor union of the C8 scan. -/
def corrC8 : Region := [⟨0, 973/200, 12, 7085/1000⟩]

/-- One spec of target area `360/13 ≈ 27.7 m²` (so the unit box is exactly
6 × 60/13). -/
def specC8 : UnitSpecV2 := ⟨"1BR", 360/13, 1⟩

/-- The strict pass-1 configuration (engine lines 978-986). -/
def passCfgC8 : PassConfig := ⟨"strict", 0.8, 0.5, 2.5, 0.50, 300⟩

/-- C8 counterexample: the first grid candidate scores `4226/325 ≈ 13.0`,
which reaches `0.75 · 17 = 12.75` — yet the code (whose `excellent_threshold` is 0.92)
keeps scanning and commits a different, later candidate; a scan that
stopped at `0.75 · 17` would commit the first one. -/
theorem C8_counterexample :
    ProfessionalLayoutEngine.evalCandidate engC8 corrC8 passCfgC8 (360/13) 6 (60/13)
      regionC8 0 0 = some ([⟨0, 0, 6, 60/13⟩], 4226/325) ∧
    ((0.75 : ℚ) * 17 ≤ 4226/325) ∧ ¬ ((0.92 : ℚ) * 17 ≤ 4226/325) ∧
    (engC8.place_units_pass [specC8] [regionC8] corrC8 [] passCfgC8).2.1 =
      [⟨"1BR", [⟨0, 9/13, 6, 973/200⟩], 32547/1300⟩] ∧
    (ProfessionalLayoutEngine.place_units_pass_thr 0.75 engC8 [specC8] [regionC8]
      corrC8 [] passCfgC8).2.1 =
      [⟨"1BR", [⟨0, 0, 6, 60/13⟩], 360/13⟩] := by decide

/-- C8 (amended): the early exit fires at `0.92 · 17` (the source's
`excellent_threshold = 0.92`), not at `0.75 · 17`: when a candidate improves
the best score to at least `0.92 · 17`, the scan step records it and sets
the stop flag immediately, and a stopped scan evaluates no further grid
positions (stopped states are fixed points of the step). -/
theorem C8_early_exit_at_92 (e : ProfessionalLayoutEngine) (corrU : Region)
    (cfg : PassConfig) (t uw ud : ℚ) (region : Region) (x y : ℚ)
    (s : ProfessionalLayoutEngine.ScanState) (clip : Region) (score : ℚ)
    (hrun : s.innerStop = false) (hatt : s.attempts < cfg.max_attempts)
    (heval : ProfessionalLayoutEngine.evalCandidate e corrU cfg t uw ud region x y =
      some (clip, score))
    (himp : s.bestScore < score) (hthr : (0.92 : ℚ) * 17 ≤ score) :
    ProfessionalLayoutEngine.scanStep 0.92 e corrU cfg t uw ud region x s y =
      ⟨some clip, score, s.attempts + 1, true, s.outerStop⟩ ∧
    ∀ s2 : ProfessionalLayoutEngine.ScanState, s2.innerStop = true →
      ProfessionalLayoutEngine.scanStep 0.92 e corrU cfg t uw ud region x s2 y = s2 := by
  constructor
  · unfold ProfessionalLayoutEngine.scanStep
    rw [if_neg (by simp [hrun]), if_neg (by omega)]
    dsimp only
    rw [heval]
    dsimp only
    rw [if_pos himp, if_pos hthr]
  · intro s2 h2
    unfold ProfessionalLayoutEngine.scanStep
    rw [if_pos h2]

/-- The C8 witness geometry: a region the unit fills exactly, touching the
corridor along a 1.8 m edge (contact area 0.09 < 0.1 earns the bonus), with
full facade on two boundary edges — scoring the maximal 17. -/
def engW8 : ProfessionalLayoutEngine := ⟨⟨0, 0, 10, 3⟩, []⟩

/-- Free region of the C8 witness. -/
def regionW8 : Region := [⟨0, 0, 9/5, 18/13⟩]

/-- Corridor of the C8 witness. -/
def corrW8 : Region := [⟨0, 18/13, 10, 3⟩]

/-- The relaxed pass-2 configuration (engine lines 991-1004). -/
def cfgW8 : PassConfig := ⟨"relaxed", 0.0, 5.0, 1.0, 0.35, 500⟩

/-- C8 witness: a perfect candidate (score 17 ≥ 0.92 · 17) at the first
grid position stops the scan at once. -/
theorem C8_early_exit_at_92_witness :
    (ProfessionalLayoutEngine.evalCandidate engW8 corrW8 cfgW8 (162/65) (9/5) (18/13)
      regionW8 0 0 = some ([⟨0, 0, 9/5, 18/13⟩], 17)) ∧
    (ProfessionalLayoutEngine.scanStep 0.92 engW8 corrW8 cfgW8 (162/65) (9/5) (18/13)
      regionW8 0 ⟨none, -1, 0, false, false⟩ 0 =
        ⟨some [⟨0, 0, 9/5, 18/13⟩], 17, 1, true, false⟩ ∧
    ∀ s2 : ProfessionalLayoutEngine.ScanState, s2.innerStop = true →
      ProfessionalLayoutEngine.scanStep 0.92 engW8 corrW8 cfgW8 (162/65) (9/5) (18/13)
        regionW8 0 s2 0 = s2) :=
  ⟨by decide,
   C8_early_exit_at_92 engW8 corrW8 cfgW8 (162/65) (9/5) (18/13) regionW8 0 0
     ⟨none, -1, 0, false, false⟩ [⟨0, 0, 9/5, 18/13⟩] 17 (by decide) (by decide)
     (by decide) (by decide) (by decide)⟩

/-- The C1 boundary: 9.4 × 6 m. -/
def boundaryC1 : Rect := ⟨0, 0, 94/10, 6⟩

/-- The C1 obstacle blocks the strip `y ∈ [4.1, 6]`, so the usable area is
`[0, 9.4] × [0, 4.1]`. -/
def obstaclesC1 : List Rect := [⟨0, 41/10, 94/10, 6⟩]

/-- The C1 unit program: the V2 legacy path (`use_v3_row_based = False`)
with one `target_count` entry whose target area is drawn by
`np.random.uniform(10, 450)`. -/
def unitCfgC1 : UnitConstraints :=
  ⟨false, "target_count", [⟨"Apt", 0, 1, 1, 10, 450, none⟩], 5, 100⟩

/-- The C1 variant configuration: degenerate core-area and corridor-width
ranges (min = max), so every stdlib draw is value-independent, and a west
core hint. -/
def cfgC1 : VariantConfig := ⟨some (5/2, 5/2), "west", some (11/5, 11/5), unitCfgC1⟩

/-- The seeded stdlib stream of the C1 runs (identical in both runs, as a
fixed seed dictates). -/
def stdStreamC1 : RngState := ⟨fun _ => 0, fun _ => 0, 0, 0⟩

/-- The numpy global stream as the first run finds it: its next uniform
draw is `39/44`, making the drawn target area `10 + (39/44)·440 = 400`. -/
def npStreamA : RngState := ⟨fun _ => 39/44, fun _ => 0, 0, 0⟩

/-- The numpy global stream as a second run may find it (the global state
is never re-seeded): draw `3/143`, target area `250/13 ≈ 19.2`. -/
def npStreamB : RngState := ⟨fun _ => 3/143, fun _ => 0, 0, 0⟩

/-- C1 counterexample: two runs of the variant pipeline with the same
boundary, obstacles, constraints and the same seeded stdlib stream, but
with the two numpy-global-RNG states above, produce different plans: the
400 m² target fits nowhere (no units), while the 19.2 m² target places one
unit — so fixing the seed alone does not make the output byte-identical on
the V2 path. -/
theorem C1_counterexample :
    (generate_single_variant boundaryC1 obstaclesC1 cfgC1 1 stdStreamC1 npStreamA).units
      = [] ∧
    (generate_single_variant boundaryC1 obstaclesC1 cfgC1 1 stdStreamC1 npStreamB).units
      = [⟨"unit_1", "Apt", [⟨9/2, 0, 47/5, 19/10⟩], 931/100, (139/20, 19/20)⟩] := by
  decide

/-- C1 (amended): with a fixed seed the pipeline is reproducible exactly
when it does not consume the unseeded numpy stream: on the default V3
row-based path the result is independent of the numpy global RNG state, so
same-seed runs coincide; on the V2 legacy path the unit target areas are
drawn from that unseeded stream and same-seed runs can differ (see the
counterexample). -/
theorem layout_units_v3_np_independent (e : ProfessionalLayoutEngine)
    (core : Region) (corridors : List Region) (c : UnitConstraints)
    (std np1 np2 : RngState) (h : c.use_v3_row_based = true) :
    (e.layout_units_with_corridor_access core corridors c std np1).1 =
      (e.layout_units_with_corridor_access core corridors c std np2).1 := by
  unfold ProfessionalLayoutEngine.layout_units_with_corridor_access
  simp only [h, if_true]
  split <;> rfl

theorem C1_v3_path_seed_determinism (boundary : Rect) (obstacles : List Rect)
    (cfg : VariantConfig) (vn : ℕ) (std np1 np2 : RngState)
    (h : cfg.unit_constraints.use_v3_row_based = true) :
    generate_single_variant boundary obstacles cfg vn std np1 =
      generate_single_variant boundary obstacles cfg vn std np2 := by
  simp only [generate_single_variant]
  rw [layout_units_v3_np_independent _ _ _ _ _ np1 np2 h]

/-- The C1 witness configuration: the same program on the V3 path. -/
def cfgC1v3 : VariantConfig :=
  ⟨some (5/2, 5/2), "west", some (11/5, 11/5),
   ⟨true, "target_count", [⟨"Apt", 0, 1, 1, 10, 450, none⟩], 5, 100⟩⟩

/-- C1 witness: on the V3 path the two numpy states of the counterexample
yield identical variants. -/
theorem C1_v3_path_seed_determinism_witness :
    cfgC1v3.unit_constraints.use_v3_row_based = true ∧
    generate_single_variant boundaryC1 obstaclesC1 cfgC1v3 1 stdStreamC1 npStreamA =
      generate_single_variant boundaryC1 obstaclesC1 cfgC1v3 1 stdStreamC1 npStreamB :=
  ⟨rfl, C1_v3_path_seed_determinism boundaryC1 obstaclesC1 cfgC1v3 1 stdStreamC1
    npStreamA npStreamB rfl⟩

end FloorPlanGen
